import Mathlib

/-!
Shallow embedding of the repository's two source files:
  * backend `src/lib/utils/cookie_response_token.py` (recovered from the
    shipped CPython 3.9 bytecode `cookie_response_token.cpython-39.pyc`):
    the functions `create_response_cookies` and `update_response_cookies`;
  * frontend `src/routes/(user)/dashboard/address/+page.server.ts`: the
    page loader `load`.

Machine strings are Lean `String`; Python truthiness of a string is
non-emptiness; timestamps and durations are `Nat` (seconds); the
background-task queue and the request cookie dictionary are explicit
state threaded through the functions; the observable effects of a call
are additionally recorded, in execution order, in a trace of events.
-/

/-- A Python value as it can appear in the request cookie dictionary:
the keyword arguments passed to `dict.update` in
`update_response_cookies` mix strings, booleans and numbers. -/
inductive PyVal
  | str (s : String)
  | bool (b : Bool)
  | nat (n : Nat)
deriving DecidableEq, Repr

/-- `src.app.user.model.User` as used here: only its `id` is read
(`str(user.id)`; the id is already a string, so `str` is the identity). -/
structure User where
  id : String
deriving DecidableEq, Repr

/-- `fastapi.Request` as used here: only its cookie dictionary
(`request.cookies`, a string-keyed mapping) is touched. -/
structure Request where
  cookies : List (String × PyVal)
deriving DecidableEq, Repr

/-- One scheduled call of `auth_token_repo.create`, with the exact
keyword arguments of the `background_task.add_task(...)` call site. -/
structure ScheduledTask where
  user : User
  request : Request
  refresh_token : String
  access_token : String
deriving DecidableEq, Repr

/-- `fastapi.background.BackgroundTasks`: the queue of scheduled tasks. -/
structure BackgroundTasks where
  tasks : List ScheduledTask
deriving DecidableEq, Repr

/-- `BackgroundTasks.add_task`: appends one task to the queue. -/
def BackgroundTasks.add_task (bt : BackgroundTasks) (t : ScheduledTask) : BackgroundTasks :=
  { tasks := bt.tasks ++ [t] }

/-- `core.settings.config` as read by the two functions: the `debug`
flag and the two configured token lifetimes (seconds). -/
structure Config where
  debug : Bool
  access_token_expire_time : Nat
  refresh_token_expire_time : Nat
deriving DecidableEq, Repr

/-- Modelled from the spec: `config.get_access_expires_time` lives in
`core.settings`, which is absent from src/; spec section 4.1 states the
explicit expiry timestamp is "now + lifetime" for the token class, so
the call returns the configured access-token lifetime as a duration. -/
def Config.get_access_expires_time (c : Config) : Nat :=
  c.access_token_expire_time

/-- Modelled from the spec: `config.get_refresh_expires_time` lives in
`core.settings`, which is absent from src/; per spec section 4.1 it
returns the configured refresh-token lifetime as a duration. -/
def Config.get_refresh_expires_time (c : Config) : Nat :=
  c.refresh_token_expire_time

/-- Modelled from the spec: `src.app.auth.schema.IToEncode` is absent
from src/; spec section 4.1 step 1: "build an encoder payload from
`user.id`" — a record holding the `user_id` keyword argument of the
call site `schema.IToEncode(user_id=str(user.id))`. -/
structure IToEncode where
  user_id : String
deriving DecidableEq, Repr

/-- Modelled from the spec: the `.dict()` method of the payload model —
the dictionary of its fields. -/
def IToEncode.dict (d : IToEncode) : List (String × String) :=
  [("user_id", d.user_id)]

/-- Modelled from the spec: `src.app.auth.schema.IToken` is absent from
src/; the call site passes both `refresh_token` and `access_token`
keyword arguments. -/
structure IToken where
  refresh_token : String
  access_token : String
deriving DecidableEq, Repr

/-- Modelled from the spec: `IToken.dict()` — spec section 4.1 step 4
states the response body is a JSON object containing only the access
token ("refresh token is NOT included in the body"), so the dictionary
exposes only the `access_token` field. -/
def IToken.dict (t : IToken) : List (String × String) :=
  [("access_token", t.access_token)]

/-- One `"` character, for rendering JSON. -/
def jsonQuote (s : String) : String :=
  "\"" ++ s ++ "\""

/-- `json.dumps` on a string-valued dictionary, in Python's default
rendering (insertion order, `", "` and `": "` separators). -/
def json_dumps (d : List (String × String)) : String :=
  "\x7b" ++ String.intercalate ", " (d.map fun p => jsonQuote p.1 ++ ": " ++ jsonQuote p.2) ++ "\x7d"

/-- One cookie as attached by `Response.set_cookie`, with exactly the
keyword arguments used at the two call sites. -/
structure Cookie where
  key : String
  value : String
  secure : Bool
  httponly : Bool
  samesite : String
  max_age : Nat
deriving DecidableEq, Repr

/-- `fastapi.Response` as constructed and mutated here: body content,
status code, media type, and the attached cookies. -/
structure Response where
  content : String
  status_code : Nat
  media_type : String
  cookies : List Cookie
deriving DecidableEq, Repr

/-- `Response.set_cookie`: appends one `Set-Cookie` directive. -/
def Response.set_cookie (r : Response) (c : Cookie) : Response :=
  { r with cookies := r.cookies ++ [c] }

/-- Python `dict` assignment `d[k] = v`: overwrite the value in place
if the key exists, else append (insertion order preserved; keys of a
Python dictionary are unique). -/
def dictSet : List (String × PyVal) → String → PyVal → List (String × PyVal)
  | [], k, v => [(k, v)]
  | p :: tl, k, v => if p.1 == k then (k, v) :: tl else p :: dictSet tl k v

/-- Python `dict.update`: fold the key-value pairs into the dictionary. -/
def dictUpdate (d : List (String × PyVal)) (kvs : List (String × PyVal)) : List (String × PyVal) :=
  kvs.foldl (fun acc kv => dictSet acc kv.1 kv.2) d

/-- Python `dict` lookup (`None` when the key is absent). -/
def dictLookup (d : List (String × PyVal)) (k : String) : Option PyVal :=
  (d.find? fun p => p.1 == k).map Prod.snd

/-- Observable events of one call, in execution order. -/
inductive Event
  | signed (access_token refresh_token : String)
  | persistScheduled (user : User) (request : Request) (refresh_token access_token : String)
  | responseBuilt
  | cookieSet (key value : String)
  | cookiesUpdated (kvs : List (String × PyVal))
deriving DecidableEq, Repr

/-- Whether an event is the scheduling of the persistence write. -/
def Event.isPersist : Event → Bool
  | .persistScheduled _ _ _ _ => true
  | _ => false

/-- Whether an event is an externally observable effect (everything
except the pure token-signing step). -/
def Event.isEffect : Event → Bool
  | .signed _ _ => false
  | _ => true

/-- Result of `create_response_cookies`: `t.Union[Response, bool]` —
either a built `Response` or the Python literal `False`. -/
inductive CreateResult
  | response (r : Response)
  | pyFalse
deriving DecidableEq, Repr

/-- The cookies of a `create_response_cookies` result (`[]` on `False`). -/
def CreateResult.cookies : CreateResult → List Cookie
  | .response r => r.cookies
  | .pyFalse => []

/-- Result of `update_response_cookies`: `t.Union[Request, bool]`. -/
inductive UpdateResult
  | request (r : Request)
  | pyFalse
deriving DecidableEq, Repr

/-- The token pair produced by
`JWTAUTH.jwt_encoder(data=schema.IToEncode(user_id=str(user.id)).dict())`,
unpacked at both call sites as `access_token, refresh_token = ...`.
The signer itself (`src.lib.utils.security.JWTAUTH`) is an external
collaborator and is taken as a parameter. -/
def jwt_tokens (jwt_encoder : List (String × String) → String × String)
    (user : User) : String × String :=
  jwt_encoder (IToEncode.dict { user_id := user.id })

/-- The first `set_cookie` call of `create_response_cookies`:
`key="auth_access_token", value=access_token, secure=True,
httponly=config.debug, samesite="lax",
max_age=config.access_token_expire_time`. -/
def access_cookie (access_token : String) (config : Config) : Cookie :=
  { key := "auth_access_token", value := access_token, secure := true,
    httponly := config.debug, samesite := "lax",
    max_age := config.access_token_expire_time }

/-- The second `set_cookie` call of `create_response_cookies`:
`key="auth_refresh_token", value=refresh_token, secure=True,
httponly=config.debug, samesite="lax",
max_age=config.refresh_token_expire_time`. -/
def refresh_cookie (refresh_token : String) (config : Config) : Cookie :=
  { key := "auth_refresh_token", value := refresh_token, secure := true,
    httponly := config.debug, samesite := "lax",
    max_age := config.refresh_token_expire_time }

/-- The keyword arguments of the first `request.cookies.update(...)`
call of `update_response_cookies`, in source order:
`key="auth_access_token", value=access_token, secure=True,
httponly=config.debug, samesite="lax",
max_age=config.access_token_expire_time,
expires=datetime.datetime.now() + config.get_access_expires_time()`. -/
def access_cookie_kwargs (access_token : String) (config : Config) (now : Nat) :
    List (String × PyVal) :=
  [("key", PyVal.str "auth_access_token"),
   ("value", PyVal.str access_token),
   ("secure", PyVal.bool true),
   ("httponly", PyVal.bool config.debug),
   ("samesite", PyVal.str "lax"),
   ("max_age", PyVal.nat config.access_token_expire_time),
   ("expires", PyVal.nat (now + config.get_access_expires_time))]

/-- The keyword arguments of the second `request.cookies.update(...)`
call of `update_response_cookies`, in source order (this call lists
`expires` before `max_age`):
`key="auth_refresh_token", value=refresh_token, secure=True,
httponly=config.debug, samesite="lax",
expires=datetime.datetime.now() + config.get_refresh_expires_time(),
max_age=config.refresh_token_expire_time`. -/
def refresh_cookie_kwargs (refresh_token : String) (config : Config) (now : Nat) :
    List (String × PyVal) :=
  [("key", PyVal.str "auth_refresh_token"),
   ("value", PyVal.str refresh_token),
   ("secure", PyVal.bool true),
   ("httponly", PyVal.bool config.debug),
   ("samesite", PyVal.str "lax"),
   ("expires", PyVal.nat (now + config.get_refresh_expires_time)),
   ("max_age", PyVal.nat config.refresh_token_expire_time)]

/-- `create_response_cookies(user, background_task, request)`:
sign a token pair for `user.id`; if either token is empty return the
Python literal `False`; otherwise schedule
`auth_token_repo.create(user=user, request=request,
refresh_token=refresh_token, access_token=access_token)` on the
background-task queue, build
`Response(content=json.dumps(schema.IToken(refresh_token=refresh_token,
access_token=access_token).dict()), status_code=200,
media_type="application/json")`, attach the two cookies with
`set_cookie`, and return the response.  The returned triple is
(result, background-task queue after the call, event trace). -/
def create_response_cookies
    (jwt_encoder : List (String × String) → String × String)
    (user : User) (background_task : BackgroundTasks) (request : Request)
    (config : Config) :
    CreateResult × BackgroundTasks × List Event :=
  let tokens := jwt_tokens jwt_encoder user
  let access_token := tokens.1
  let refresh_token := tokens.2
  if access_token ≠ "" ∧ refresh_token ≠ "" then
    let background_task := background_task.add_task
      { user := user, request := request,
        refresh_token := refresh_token, access_token := access_token }
    let response : Response :=
      { content := json_dumps (IToken.dict
          { refresh_token := refresh_token, access_token := access_token }),
        status_code := 200,
        media_type := "application/json",
        cookies := [] }
    let response := response.set_cookie (access_cookie access_token config)
    let response := response.set_cookie (refresh_cookie refresh_token config)
    (CreateResult.response response, background_task,
      [Event.signed access_token refresh_token,
       Event.persistScheduled user request refresh_token access_token,
       Event.responseBuilt,
       Event.cookieSet "auth_access_token" access_token,
       Event.cookieSet "auth_refresh_token" refresh_token])
  else
    (CreateResult.pyFalse, background_task,
      [Event.signed access_token refresh_token])

/-- `update_response_cookies(user, background_task, request)`:
identical signing, guard and persistence-scheduling steps as
`create_response_cookies`, but instead of building a response it merges
the two sets of `set_cookie`-style keyword arguments into the existing
`request.cookies` dictionary via `dict.update`, then returns the
request.  `now1` and `now2` are the two successive
`datetime.datetime.now()` readings. -/
def update_response_cookies
    (jwt_encoder : List (String × String) → String × String)
    (user : User) (background_task : BackgroundTasks) (request : Request)
    (config : Config) (now1 now2 : Nat) :
    UpdateResult × BackgroundTasks × List Event :=
  let tokens := jwt_tokens jwt_encoder user
  let access_token := tokens.1
  let refresh_token := tokens.2
  if access_token ≠ "" ∧ refresh_token ≠ "" then
    let background_task := background_task.add_task
      { user := user, request := request,
        refresh_token := refresh_token, access_token := access_token }
    let kvs1 := access_cookie_kwargs access_token config now1
    let request1 : Request := { cookies := dictUpdate request.cookies kvs1 }
    let kvs2 := refresh_cookie_kwargs refresh_token config now2
    let request2 : Request := { cookies := dictUpdate request1.cookies kvs2 }
    (UpdateResult.request request2, background_task,
      [Event.signed access_token refresh_token,
       Event.persistScheduled user request refresh_token access_token,
       Event.cookiesUpdated kvs1,
       Event.cookiesUpdated kvs2])
  else
    (UpdateResult.pyFalse, background_task,
      [Event.signed access_token refresh_token])

/-- The frontend page loader's result object: it has exactly one key,
`addressList`. -/
structure LoadResult (α : Type) where
  addressList : α

/-- The page loader of `+page.server.ts`: destructure the `fetch`
capability and return `\x7b addressList: get_addressList(fetch) \x7d`.
The accessor `get_addressList` (from `$root/lib/utils/page/address`,
not under src/) is an external collaborator taken as a parameter; its
result is forwarded unawaited. -/
def load {Fetch α : Type} (get_addressList : Fetch → α) (fetch : Fetch) :
    LoadResult α :=
  { addressList := get_addressList fetch }

/-- Sample signer: a signing function returning the token pair
`("acc", "ref")` (access, refresh). -/
def sampleSigner : List (String × String) → String × String := fun _ => ("acc", "ref")

/-- Sample signer whose access token comes back empty. -/
def failSigner : List (String × String) → String × String := fun _ => ("", "ref")

/-- Sample user, id `"42"` (spec section 8 example). -/
def sampleUser : User := { id := "42" }

/-- Sample request with an empty cookie dictionary. -/
def sampleRequest : Request := { cookies := [] }

/-- An empty background-task queue. -/
def emptyTasks : BackgroundTasks := { tasks := [] }

/-- The spec section 8 example configuration: debug off, access
lifetime 900 s, refresh lifetime 604800 s. -/
def prodConfig : Config :=
  { debug := false, access_token_expire_time := 900, refresh_token_expire_time := 604800 }

/-- The response `create_response_cookies` builds for `sampleSigner`,
`sampleUser` and `prodConfig`. -/
def resp42 : Response :=
  { content := "\x7b\"access_token\": \"acc\"\x7d",
    status_code := 200,
    media_type := "application/json",
    cookies := [access_cookie "acc" prodConfig, refresh_cookie "ref" prodConfig] }

/-- The request `update_response_cookies` returns for `sampleSigner`,
`sampleUser`, `sampleRequest`, `prodConfig` and clock readings
1000/1000: the two keyword-argument merges leave a single set of
entries, the second merge having overwritten the first. -/
def req42 : Request :=
  { cookies := [("key", PyVal.str "auth_refresh_token"),
                ("value", PyVal.str "ref"),
                ("secure", PyVal.bool true),
                ("httponly", PyVal.bool false),
                ("samesite", PyVal.str "lax"),
                ("max_age", PyVal.nat 604800),
                ("expires", PyVal.nat 605800)] }

/-- Success branch of `create_response_cookies`, spelled out. -/
theorem create_response_cookies_pos
    (je : List (String × String) → String × String)
    (u : User) (bt : BackgroundTasks) (req : Request) (cfg : Config)
    (hc : (jwt_tokens je u).1 ≠ "" ∧ (jwt_tokens je u).2 ≠ "") :
    create_response_cookies je u bt req cfg =
      (CreateResult.response
        { content := json_dumps (IToken.dict
            { refresh_token := (jwt_tokens je u).2, access_token := (jwt_tokens je u).1 }),
          status_code := 200,
          media_type := "application/json",
          cookies := [access_cookie (jwt_tokens je u).1 cfg,
                      refresh_cookie (jwt_tokens je u).2 cfg] },
       bt.add_task ⟨u, req, (jwt_tokens je u).2, (jwt_tokens je u).1⟩,
       [Event.signed (jwt_tokens je u).1 (jwt_tokens je u).2,
        Event.persistScheduled u req (jwt_tokens je u).2 (jwt_tokens je u).1,
        Event.responseBuilt,
        Event.cookieSet "auth_access_token" (jwt_tokens je u).1,
        Event.cookieSet "auth_refresh_token" (jwt_tokens je u).2]) := by
  simp only [create_response_cookies]
  rw [if_pos hc]
  rfl

/-- Failure branch of `create_response_cookies`, spelled out. -/
theorem create_response_cookies_neg
    (je : List (String × String) → String × String)
    (u : User) (bt : BackgroundTasks) (req : Request) (cfg : Config)
    (hc : ¬((jwt_tokens je u).1 ≠ "" ∧ (jwt_tokens je u).2 ≠ "")) :
    create_response_cookies je u bt req cfg =
      (CreateResult.pyFalse, bt,
       [Event.signed (jwt_tokens je u).1 (jwt_tokens je u).2]) := by
  simp only [create_response_cookies]
  rw [if_neg hc]

/-- Success branch of `update_response_cookies`, spelled out. -/
theorem update_response_cookies_pos
    (je : List (String × String) → String × String)
    (u : User) (bt : BackgroundTasks) (req : Request) (cfg : Config) (now1 now2 : Nat)
    (hc : (jwt_tokens je u).1 ≠ "" ∧ (jwt_tokens je u).2 ≠ "") :
    update_response_cookies je u bt req cfg now1 now2 =
      (UpdateResult.request
        { cookies := dictUpdate
            (dictUpdate req.cookies (access_cookie_kwargs (jwt_tokens je u).1 cfg now1))
            (refresh_cookie_kwargs (jwt_tokens je u).2 cfg now2) },
       bt.add_task ⟨u, req, (jwt_tokens je u).2, (jwt_tokens je u).1⟩,
       [Event.signed (jwt_tokens je u).1 (jwt_tokens je u).2,
        Event.persistScheduled u req (jwt_tokens je u).2 (jwt_tokens je u).1,
        Event.cookiesUpdated (access_cookie_kwargs (jwt_tokens je u).1 cfg now1),
        Event.cookiesUpdated (refresh_cookie_kwargs (jwt_tokens je u).2 cfg now2)]) := by
  simp only [update_response_cookies]
  rw [if_pos hc]

/-- Failure branch of `update_response_cookies`, spelled out. -/
theorem update_response_cookies_neg
    (je : List (String × String) → String × String)
    (u : User) (bt : BackgroundTasks) (req : Request) (cfg : Config) (now1 now2 : Nat)
    (hc : ¬((jwt_tokens je u).1 ≠ "" ∧ (jwt_tokens je u).2 ≠ "")) :
    update_response_cookies je u bt req cfg now1 now2 =
      (UpdateResult.pyFalse, bt,
       [Event.signed (jwt_tokens je u).1 (jwt_tokens je u).2]) := by
  simp only [update_response_cookies]
  rw [if_neg hc]

/-- Looking a key up at the head of a dictionary. -/
theorem dictLookup_cons (p : String × PyVal) (tl : List (String × PyVal)) (k : String) :
    dictLookup (p :: tl) k = if p.1 = k then some p.2 else dictLookup tl k := by
  by_cases h : p.1 = k <;> simp [dictLookup, List.find?_cons, h]

/-- Looking a key up after a `dict` assignment: the assigned key maps
to the new value, every other key is untouched. -/
theorem dictLookup_dictSet (d : List (String × PyVal)) (k k' : String) (v : PyVal) :
    dictLookup (dictSet d k v) k' = if k' = k then some v else dictLookup d k' := by
  induction d with
  | nil =>
    rw [show dictSet [] k v = [(k, v)] from rfl, dictLookup_cons]
    by_cases h : k' = k
    · simp [h]
    · have h2 : ¬(k = k') := fun hh => h hh.symm
      simp [dictLookup, h, h2]
  | cons p tl ih =>
    by_cases hp : p.1 = k
    · have hset : dictSet (p :: tl) k v = (k, v) :: tl := by
        simp [dictSet, hp]
      rw [hset, dictLookup_cons, dictLookup_cons]
      by_cases h : k' = k
      · simp [h]
      · have h2 : ¬(k = k') := fun hh => h hh.symm
        have h3 : ¬(p.1 = k') := fun hh => h2 (hp.symm.trans hh)
        simp [h, h2, h3]
    · have hset : dictSet (p :: tl) k v = p :: dictSet tl k v := by
        simp [dictSet, hp]
      rw [hset, dictLookup_cons, dictLookup_cons, ih]
      by_cases hq : p.1 = k'
      · have h : ¬(k' = k) := fun hh => hp (hq.trans hh)
        simp [hq, h]
      · simp [hq]

/-- C1 counterexample: with the example configuration and the debug
flag off, `create_response_cookies` returns a response on which both
cookies carry `httponly = false` — the claim that both cookies have
HttpOnly true independently of the debug configuration flag is false
(the source passes `httponly=config.debug` to `set_cookie`). -/
theorem C1_counterexample :
    prodConfig.debug = false ∧
    (create_response_cookies sampleSigner sampleUser emptyTasks sampleRequest prodConfig).1 =
      CreateResult.response resp42 ∧
    resp42.cookies.map Cookie.httponly = [false, false] :=
  ⟨rfl, rfl, rfl⟩

/-- C1 (amended): on every successful call of either variant, both
cookies have Secure true, SameSite lax, and max_age equal to the
configured lifetime of the token class, but HttpOnly equals the debug
configuration flag; in `update_response_cookies` these are the final
attribute values merged into the request's cookie dictionary (whose
max_age is the refresh lifetime, the second merge having overwritten
the first). -/
theorem C1_cookie_attributes
    (je : List (String × String) → String × String)
    (u : User) (bt : BackgroundTasks) (req : Request) (cfg : Config) (now1 now2 : Nat) :
    (∀ r : Response, (create_response_cookies je u bt req cfg).1 = CreateResult.response r →
      r.cookies.map (fun c => (c.secure, c.httponly, c.samesite, c.max_age)) =
        [(true, cfg.debug, "lax", cfg.access_token_expire_time),
         (true, cfg.debug, "lax", cfg.refresh_token_expire_time)]) ∧
    (∀ rq : Request, (update_response_cookies je u bt req cfg now1 now2).1 = UpdateResult.request rq →
      dictLookup rq.cookies "secure" = some (PyVal.bool true) ∧
      dictLookup rq.cookies "httponly" = some (PyVal.bool cfg.debug) ∧
      dictLookup rq.cookies "samesite" = some (PyVal.str "lax") ∧
      dictLookup rq.cookies "max_age" = some (PyVal.nat cfg.refresh_token_expire_time)) := by
  constructor
  · intro r h
    by_cases hc : (jwt_tokens je u).1 ≠ "" ∧ (jwt_tokens je u).2 ≠ ""
    · rw [create_response_cookies_pos je u bt req cfg hc] at h
      simp only [CreateResult.response.injEq] at h
      subst h
      rfl
    · rw [create_response_cookies_neg je u bt req cfg hc] at h
      simp at h
  · intro rq h
    by_cases hc : (jwt_tokens je u).1 ≠ "" ∧ (jwt_tokens je u).2 ≠ ""
    · rw [update_response_cookies_pos je u bt req cfg now1 now2 hc] at h
      simp only [UpdateResult.request.injEq] at h
      subst h
      refine ⟨?_, ?_, ?_, ?_⟩ <;>
        simp [dictUpdate, access_cookie_kwargs, refresh_cookie_kwargs,
          dictLookup_dictSet]
    · rw [update_response_cookies_neg je u bt req cfg now1 now2 hc] at h
      simp at h

/-- C1 witness: the amended attribute contract, instantiated at the
example configuration. -/
theorem C1_witness :
    (resp42.cookies.map (fun c => (c.secure, c.httponly, c.samesite, c.max_age)) =
      [(true, prodConfig.debug, "lax", prodConfig.access_token_expire_time),
       (true, prodConfig.debug, "lax", prodConfig.refresh_token_expire_time)]) ∧
    dictLookup req42.cookies "secure" = some (PyVal.bool true) ∧
    dictLookup req42.cookies "httponly" = some (PyVal.bool prodConfig.debug) ∧
    dictLookup req42.cookies "samesite" = some (PyVal.str "lax") ∧
    dictLookup req42.cookies "max_age" = some (PyVal.nat prodConfig.refresh_token_expire_time) :=
  ⟨(C1_cookie_attributes sampleSigner sampleUser emptyTasks sampleRequest prodConfig 1000 1000).1
      resp42 rfl,
   (C1_cookie_attributes sampleSigner sampleUser emptyTasks sampleRequest prodConfig 1000 1000).2
      req42 rfl⟩

/-- C2: whenever the signer yields an empty access token or an empty
refresh token, `create_response_cookies` returns the Python literal
`False` rather than a response (and, being a total function of the
embedding, raises nothing). -/
theorem C2_guard_soft_failure
    (je : List (String × String) → String × String)
    (u : User) (bt : BackgroundTasks) (req : Request) (cfg : Config)
    (h : (jwt_tokens je u).1 = "" ∨ (jwt_tokens je u).2 = "") :
    (create_response_cookies je u bt req cfg).1 = CreateResult.pyFalse := by
  have hc : ¬((jwt_tokens je u).1 ≠ "" ∧ (jwt_tokens je u).2 ≠ "") := by
    rcases h with h | h <;> simp [h]
  rw [create_response_cookies_neg je u bt req cfg hc]

/-- C2 witness: a signer returning an empty access token makes
`create_response_cookies` return `False`. -/
theorem C2_witness :
    (create_response_cookies failSigner sampleUser emptyTasks sampleRequest prodConfig).1 =
      CreateResult.pyFalse :=
  C2_guard_soft_failure failSigner sampleUser emptyTasks sampleRequest prodConfig (Or.inl rfl)

/-- C3: every successful `create_response_cookies` call returns a
response with status 200, JSON media type, and a body that is the JSON
object holding exactly the access token (under the spec-modelled
`IToken.dict`, which exposes only the `access_token` field). -/
theorem C3_response_body
    (je : List (String × String) → String × String)
    (u : User) (bt : BackgroundTasks) (req : Request) (cfg : Config) (r : Response)
    (h : (create_response_cookies je u bt req cfg).1 = CreateResult.response r) :
    r.status_code = 200 ∧ r.media_type = "application/json" ∧
    r.content = json_dumps [("access_token", (jwt_tokens je u).1)] := by
  by_cases hc : (jwt_tokens je u).1 ≠ "" ∧ (jwt_tokens je u).2 ≠ ""
  · rw [create_response_cookies_pos je u bt req cfg hc] at h
    simp only [CreateResult.response.injEq] at h
    subst h
    exact ⟨rfl, rfl, rfl⟩
  · rw [create_response_cookies_neg je u bt req cfg hc] at h
    simp at h

/-- C3 witness: the body contract at the example input. -/
theorem C3_witness :
    resp42.status_code = 200 ∧ resp42.media_type = "application/json" ∧
    resp42.content = json_dumps [("access_token", "acc")] :=
  C3_response_body sampleSigner sampleUser emptyTasks sampleRequest prodConfig resp42 rfl

/-- C4: every successful `create_response_cookies` call attaches
exactly two cookies, `auth_access_token` holding the freshly signed
access token and `auth_refresh_token` holding the freshly signed
refresh token, both values non-empty. -/
theorem C4_two_named_cookies
    (je : List (String × String) → String × String)
    (u : User) (bt : BackgroundTasks) (req : Request) (cfg : Config) (r : Response)
    (h : (create_response_cookies je u bt req cfg).1 = CreateResult.response r) :
    r.cookies.map (fun c => (c.key, c.value)) =
      [("auth_access_token", (jwt_tokens je u).1),
       ("auth_refresh_token", (jwt_tokens je u).2)] ∧
    (jwt_tokens je u).1 ≠ "" ∧ (jwt_tokens je u).2 ≠ "" := by
  by_cases hc : (jwt_tokens je u).1 ≠ "" ∧ (jwt_tokens je u).2 ≠ ""
  · rw [create_response_cookies_pos je u bt req cfg hc] at h
    simp only [CreateResult.response.injEq] at h
    subst h
    exact ⟨rfl, hc⟩
  · rw [create_response_cookies_neg je u bt req cfg hc] at h
    simp at h

/-- C4 witness: the two named cookies at the example input. -/
theorem C4_witness :
    resp42.cookies.map (fun c => (c.key, c.value)) =
      [("auth_access_token", "acc"), ("auth_refresh_token", "ref")] ∧
    ("acc" : String) ≠ "" ∧ ("ref" : String) ≠ "" :=
  C4_two_named_cookies sampleSigner sampleUser emptyTasks sampleRequest prodConfig resp42 rfl

/-- C5: every successful call of either variant appends exactly one
`auth_token_repo.create` task to the background-task queue, whose
arguments are the user, the request, and the refresh and access tokens
signed in that same call; the event trace records exactly one
persistence-scheduling event. -/
theorem C5_persist_exactly_once
    (je : List (String × String) → String × String)
    (u : User) (bt : BackgroundTasks) (req : Request) (cfg : Config) (now1 now2 : Nat) :
    (∀ r : Response, (create_response_cookies je u bt req cfg).1 = CreateResult.response r →
      (create_response_cookies je u bt req cfg).2.1.tasks =
        bt.tasks ++ [⟨u, req, (jwt_tokens je u).2, (jwt_tokens je u).1⟩] ∧
      (create_response_cookies je u bt req cfg).2.2.filter Event.isPersist =
        [Event.persistScheduled u req (jwt_tokens je u).2 (jwt_tokens je u).1]) ∧
    (∀ rq : Request, (update_response_cookies je u bt req cfg now1 now2).1 = UpdateResult.request rq →
      (update_response_cookies je u bt req cfg now1 now2).2.1.tasks =
        bt.tasks ++ [⟨u, req, (jwt_tokens je u).2, (jwt_tokens je u).1⟩] ∧
      (update_response_cookies je u bt req cfg now1 now2).2.2.filter Event.isPersist =
        [Event.persistScheduled u req (jwt_tokens je u).2 (jwt_tokens je u).1]) := by
  constructor
  · intro r h
    by_cases hc : (jwt_tokens je u).1 ≠ "" ∧ (jwt_tokens je u).2 ≠ ""
    · rw [create_response_cookies_pos je u bt req cfg hc] at h ⊢
      exact ⟨rfl, rfl⟩
    · rw [create_response_cookies_neg je u bt req cfg hc] at h
      simp at h
  · intro rq h
    by_cases hc : (jwt_tokens je u).1 ≠ "" ∧ (jwt_tokens je u).2 ≠ ""
    · rw [update_response_cookies_pos je u bt req cfg now1 now2 hc] at h ⊢
      exact ⟨rfl, rfl⟩
    · rw [update_response_cookies_neg je u bt req cfg now1 now2 hc] at h
      simp at h

/-- C5 witness: the single scheduled persistence task at the example
input, for both variants. -/
theorem C5_witness :
    ((create_response_cookies sampleSigner sampleUser emptyTasks sampleRequest prodConfig).2.1.tasks =
      emptyTasks.tasks ++ [⟨sampleUser, sampleRequest, "ref", "acc"⟩] ∧
     (create_response_cookies sampleSigner sampleUser emptyTasks sampleRequest prodConfig).2.2.filter
        Event.isPersist =
      [Event.persistScheduled sampleUser sampleRequest "ref" "acc"]) ∧
    ((update_response_cookies sampleSigner sampleUser emptyTasks sampleRequest prodConfig 1000 1000).2.1.tasks =
      emptyTasks.tasks ++ [⟨sampleUser, sampleRequest, "ref", "acc"⟩] ∧
     (update_response_cookies sampleSigner sampleUser emptyTasks sampleRequest prodConfig 1000 1000).2.2.filter
        Event.isPersist =
      [Event.persistScheduled sampleUser sampleRequest "ref" "acc"]) :=
  ⟨(C5_persist_exactly_once sampleSigner sampleUser emptyTasks sampleRequest prodConfig 1000 1000).1
      resp42 rfl,
   (C5_persist_exactly_once sampleSigner sampleUser emptyTasks sampleRequest prodConfig 1000 1000).2
      req42 rfl⟩

/-- C6: whenever `create_response_cookies` returns a response, the
event trace of the call — listed in execution order, all before the
response is handed back — has the signing step at position 0, the
persistence scheduling at position 1, and the response construction at
position 2: the token pair is generated and the persistence write
scheduled before the response carrying the cookies is returned, and no
response escapes a path that skipped the scheduling. -/
theorem C6_persist_before_response
    (je : List (String × String) → String × String)
    (u : User) (bt : BackgroundTasks) (req : Request) (cfg : Config) (r : Response)
    (h : (create_response_cookies je u bt req cfg).1 = CreateResult.response r) :
    (create_response_cookies je u bt req cfg).2.2.get? 0 =
      some (Event.signed (jwt_tokens je u).1 (jwt_tokens je u).2) ∧
    (create_response_cookies je u bt req cfg).2.2.get? 1 =
      some (Event.persistScheduled u req (jwt_tokens je u).2 (jwt_tokens je u).1) ∧
    (create_response_cookies je u bt req cfg).2.2.get? 2 = some Event.responseBuilt := by
  by_cases hc : (jwt_tokens je u).1 ≠ "" ∧ (jwt_tokens je u).2 ≠ ""
  · rw [create_response_cookies_pos je u bt req cfg hc]
    exact ⟨rfl, rfl, rfl⟩
  · rw [create_response_cookies_neg je u bt req cfg hc] at h
    simp at h

/-- C6 witness: the ordered trace at the example input. -/
theorem C6_witness :
    (create_response_cookies sampleSigner sampleUser emptyTasks sampleRequest prodConfig).2.2.get? 0 =
      some (Event.signed "acc" "ref") ∧
    (create_response_cookies sampleSigner sampleUser emptyTasks sampleRequest prodConfig).2.2.get? 1 =
      some (Event.persistScheduled sampleUser sampleRequest "ref" "acc") ∧
    (create_response_cookies sampleSigner sampleUser emptyTasks sampleRequest prodConfig).2.2.get? 2 =
      some Event.responseBuilt :=
  C6_persist_before_response sampleSigner sampleUser emptyTasks sampleRequest prodConfig resp42 rfl

/-- C7: evaluating `update_response_cookies` at a concrete input.  The
function has no response parameter at all; it merges the
`set_cookie`-style keyword arguments into the request's cookie
dictionary, so afterwards the dictionary holds the keyword names as
keys (the second merge having overwritten the first) and no cookie
named `auth_access_token` or `auth_refresh_token` exists — contrary to
the claim that it sets those two cookies on an existing response's
cookie jar. -/
theorem C7_update_rewrites_request_dict :
    (update_response_cookies sampleSigner sampleUser emptyTasks sampleRequest prodConfig 1000 1000).1 =
      UpdateResult.request req42 ∧
    dictLookup req42.cookies "auth_access_token" = none ∧
    dictLookup req42.cookies "auth_refresh_token" = none ∧
    dictLookup req42.cookies "key" = some (PyVal.str "auth_refresh_token") ∧
    dictLookup req42.cookies "value" = some (PyVal.str "ref") :=
  ⟨rfl, rfl, rfl, rfl, rfl⟩

/-- C8 counterexample: at a concrete input the second keyword-argument
merge of `update_response_cookies` overwrites the first, so the final
request dictionary retains only the refresh-class values and the
freshly signed access token appears nowhere in it — the access-class
cookie has no resulting expiry at all, refuting "the resulting expiry
of each cookie equals the configured lifetime for its token class
under both mechanisms". -/
theorem C8_counterexample :
    (update_response_cookies sampleSigner sampleUser emptyTasks sampleRequest prodConfig 1000 1000).1 =
      UpdateResult.request req42 ∧
    dictLookup req42.cookies "expires" =
      some (PyVal.nat (1000 + prodConfig.refresh_token_expire_time)) ∧
    dictLookup req42.cookies "max_age" =
      some (PyVal.nat prodConfig.refresh_token_expire_time) ∧
    req42.cookies.all (fun p => !(p.2 == PyVal.str "acc")) = true :=
  ⟨rfl, rfl, rfl, rfl⟩

/-- C8 (amended): the two variants use different mechanisms —
`create_response_cookies` attaches real cookies via `set_cookie`
carrying `max_age` equal to the configured lifetime of each token
class, while `update_response_cookies` merges `set_cookie`-style
keyword arguments (including `expires = now + lifetime`, with the
spec-modelled `get_access_expires_time` / `get_refresh_expires_time`
returning the class lifetimes) into the request's cookie dictionary;
there the second merge overwrites the first, so the final `expires`
and `max_age` values are the refresh-class ones. -/
theorem C8_expiry_mechanisms
    (je : List (String × String) → String × String)
    (u : User) (bt : BackgroundTasks) (req : Request) (cfg : Config) (now1 now2 : Nat) :
    cfg.get_access_expires_time = cfg.access_token_expire_time ∧
    cfg.get_refresh_expires_time = cfg.refresh_token_expire_time ∧
    (∀ r : Response, (create_response_cookies je u bt req cfg).1 = CreateResult.response r →
      r.cookies.map (fun c => (c.key, c.max_age)) =
        [("auth_access_token", cfg.access_token_expire_time),
         ("auth_refresh_token", cfg.refresh_token_expire_time)]) ∧
    (∀ rq : Request, (update_response_cookies je u bt req cfg now1 now2).1 = UpdateResult.request rq →
      dictLookup rq.cookies "expires" =
        some (PyVal.nat (now2 + cfg.get_refresh_expires_time)) ∧
      dictLookup rq.cookies "max_age" =
        some (PyVal.nat cfg.refresh_token_expire_time)) := by
  refine ⟨rfl, rfl, ?_, ?_⟩
  · intro r h
    by_cases hc : (jwt_tokens je u).1 ≠ "" ∧ (jwt_tokens je u).2 ≠ ""
    · rw [create_response_cookies_pos je u bt req cfg hc] at h
      simp only [CreateResult.response.injEq] at h
      subst h
      rfl
    · rw [create_response_cookies_neg je u bt req cfg hc] at h
      simp at h
  · intro rq h
    by_cases hc : (jwt_tokens je u).1 ≠ "" ∧ (jwt_tokens je u).2 ≠ ""
    · rw [update_response_cookies_pos je u bt req cfg now1 now2 hc] at h
      simp only [UpdateResult.request.injEq] at h
      subst h
      refine ⟨?_, ?_⟩ <;>
        simp [dictUpdate, access_cookie_kwargs, refresh_cookie_kwargs,
          Config.get_access_expires_time, Config.get_refresh_expires_time,
          dictLookup_dictSet]
    · rw [update_response_cookies_neg je u bt req cfg now1 now2 hc] at h
      simp at h

/-- C8 witness: the amended expiry contract at the example input. -/
theorem C8_witness :
    prodConfig.get_access_expires_time = prodConfig.access_token_expire_time ∧
    prodConfig.get_refresh_expires_time = prodConfig.refresh_token_expire_time ∧
    resp42.cookies.map (fun c => (c.key, c.max_age)) =
      [("auth_access_token", prodConfig.access_token_expire_time),
       ("auth_refresh_token", prodConfig.refresh_token_expire_time)] ∧
    dictLookup req42.cookies "expires" =
      some (PyVal.nat (1000 + prodConfig.get_refresh_expires_time)) ∧
    dictLookup req42.cookies "max_age" =
      some (PyVal.nat prodConfig.refresh_token_expire_time) :=
  ⟨(C8_expiry_mechanisms sampleSigner sampleUser emptyTasks sampleRequest prodConfig 1000 1000).1,
   (C8_expiry_mechanisms sampleSigner sampleUser emptyTasks sampleRequest prodConfig 1000 1000).2.1,
   (C8_expiry_mechanisms sampleSigner sampleUser emptyTasks sampleRequest prodConfig 1000 1000).2.2.1
      resp42 rfl,
   (C8_expiry_mechanisms sampleSigner sampleUser emptyTasks sampleRequest prodConfig 1000 1000).2.2.2
      req42 rfl⟩

/-- C9: the frontend page loader is a pure pass-through — for every
fetch capability it returns the object whose only key, `addressList`,
holds exactly `get_addressList(fetch)`, with no awaiting or other
logic applied. -/
theorem C9_load_pass_through {Fetch α : Type}
    (get_addressList : Fetch → α) (fetch : Fetch) :
    load get_addressList fetch = { addressList := get_addressList fetch } :=
  rfl

/-- C10: when either signed token is empty, both variants are atomic
on the failure path: the result is the Python literal `False`, the
background-task queue is unchanged (no persistence scheduled), and the
event trace contains no observable effect — no response construction,
no `set_cookie`, and no merge into the request's cookie dictionary. -/
theorem C10_failure_no_effects
    (je : List (String × String) → String × String)
    (u : User) (bt : BackgroundTasks) (req : Request) (cfg : Config) (now1 now2 : Nat)
    (h : (jwt_tokens je u).1 = "" ∨ (jwt_tokens je u).2 = "") :
    (create_response_cookies je u bt req cfg).1 = CreateResult.pyFalse ∧
    (create_response_cookies je u bt req cfg).2.1 = bt ∧
    (create_response_cookies je u bt req cfg).2.2.all (fun e => !e.isEffect) = true ∧
    (update_response_cookies je u bt req cfg now1 now2).1 = UpdateResult.pyFalse ∧
    (update_response_cookies je u bt req cfg now1 now2).2.1 = bt ∧
    (update_response_cookies je u bt req cfg now1 now2).2.2.all (fun e => !e.isEffect) = true := by
  have hc : ¬((jwt_tokens je u).1 ≠ "" ∧ (jwt_tokens je u).2 ≠ "") := by
    rcases h with h | h <;> simp [h]
  rw [create_response_cookies_neg je u bt req cfg hc,
    update_response_cookies_neg je u bt req cfg now1 now2 hc]
  exact ⟨rfl, rfl, rfl, rfl, rfl, rfl⟩

/-- C10 witness: failure-path atomicity for a signer returning an
empty access token. -/
theorem C10_witness :
    (create_response_cookies failSigner sampleUser emptyTasks sampleRequest prodConfig).1 =
      CreateResult.pyFalse ∧
    (create_response_cookies failSigner sampleUser emptyTasks sampleRequest prodConfig).2.1 =
      emptyTasks ∧
    (create_response_cookies failSigner sampleUser emptyTasks sampleRequest prodConfig).2.2.all
      (fun e => !e.isEffect) = true ∧
    (update_response_cookies failSigner sampleUser emptyTasks sampleRequest prodConfig 1000 1000).1 =
      UpdateResult.pyFalse ∧
    (update_response_cookies failSigner sampleUser emptyTasks sampleRequest prodConfig 1000 1000).2.1 =
      emptyTasks ∧
    (update_response_cookies failSigner sampleUser emptyTasks sampleRequest prodConfig 1000 1000).2.2.all
      (fun e => !e.isEffect) = true :=
  C10_failure_no_effects failSigner sampleUser emptyTasks sampleRequest prodConfig 1000 1000
    (Or.inl rfl)
